import Mathlib

/-!
# Mediflux — query interpretation and multi-source orchestration

Shallow embedding of the Mediflux repository's query-interpretation layer:
the chat keyword router, the evidence/confidence presentation components,
the document-upload file validation, the practitioner-list fallback, and
the (spec-described) classifier/orchestrator/formatter core, together with
theorems settling the frozen claims about them.

Text is modelled as `List Char`; JavaScript numbers that carry confidence
scores or prices are modelled as `ℚ`; absent (undefined) values are
modelled as `Option`.
-/

namespace Mediflux

/-- JavaScript `toLowerCase`, restricted to the characters that occur in the
chat keyword rules: ASCII letters plus the accented French capitals of the
keywords involved. -/
def frLower (c : Char) : Char :=
  if c = 'É' then 'é' else if c = 'Û' then 'û' else if c = 'È' then 'è' else c.toLower

/-- Lower-case a whole text, character by character. -/
def lowerText (s : List Char) : List Char := s.map frLower

/-- Predicate `begins n h` holds when the needle `n` occurs at the very start of `h`. -/
def begins : List Char → List Char → Bool
  | [], _ => true
  | _ :: _, [] => false
  | a :: as, b :: bs => a == b && begins as bs

/-- JavaScript `String.includes`: `hasSub n h` holds when `n` occurs as a
contiguous substring of `h`. -/
def hasSub (n : List Char) : List Char → Bool
  | [] => n.isEmpty
  | b :: bs => begins n (b :: bs) || hasSub n bs

/-! ## Chat keyword router (src/frontend/src/components/ChatInterface.tsx, getSimulatedResponse) -/

/-- Reply of the first rule (reimbursement keywords) of `getSimulatedResponse`. -/
def respReimbursement : String :=
  "Je peux vous aider à simuler le remboursement de vos médicaments ou consultations. Pouvez-vous me préciser : quel médicament ou quelle consultation vous intéresse ? Avez-vous votre carte de mutuelle à disposition ?"

/-- Reply of the second rule (care-pathway / practitioner keywords). -/
def respPathway : String :=
  "Pour optimiser votre parcours de soins, j'ai besoin de quelques informations : quelle est votre pathologie ou symptôme ? Quelle est votre région ? Préférez-vous le secteur public ou privé ?"

/-- Reply of the third rule (document-analysis keywords). -/
def respDocument : String :=
  "Je peux analyser vos documents médicaux (carte de mutuelle, feuilles de soins, ordonnances). Utilisez le bouton de téléchargement pour m'envoyer votre document, et je vous expliquerai votre couverture."

/-- Default reply when no keyword rule matches. -/
def respDefault : String :=
  "Je comprends votre demande. Pour vous aider au mieux, pouvez-vous me préciser si vous souhaitez : 1) Simuler un remboursement, 2) Optimiser un parcours de soins, ou 3) Analyser un document médical ?"

/-- Keywords of the first rule of `getSimulatedResponse`. -/
def reimbursementKeywords : List (List Char) :=
  ["remboursement".toList, "coût".toList, "prix".toList]

/-- Keywords of the second rule of `getSimulatedResponse`. -/
def pathwayKeywords : List (List Char) :=
  ["parcours".toList, "médecin".toList, "spécialiste".toList]

/-- Keywords of the third rule of `getSimulatedResponse`. -/
def documentKeywords : List (List Char) :=
  ["document".toList, "analyser".toList, "carte".toList]

/-- A text matches a rule when it contains at least one of its keywords. -/
def matchesAny (kws : List (List Char)) (m : List Char) : Bool :=
  kws.any (fun k => hasSub k m)

/-- The function `getSimulatedResponse` from ChatInterface.tsx: lower-case the message and
test the three keyword rules in source order, returning at the first match. -/
def getSimulatedResponse (userMessage : List Char) : String :=
  let m := lowerText userMessage
  if hasSub "remboursement".toList m || hasSub "coût".toList m || hasSub "prix".toList m then
    respReimbursement
  else if hasSub "parcours".toList m || hasSub "médecin".toList m || hasSub "spécialiste".toList m then
    respPathway
  else if hasSub "document".toList m || hasSub "analyser".toList m || hasSub "carte".toList m then
    respDocument
  else
    respDefault

/-- The router's rule table in its source order. -/
def ruleTable : List (List (List Char) × String) :=
  [(reimbursementKeywords, respReimbursement),
   (pathwayKeywords, respPathway),
   (documentKeywords, respDocument)]

/-- Evaluate an ordered rule table: the first rule whose keywords match wins,
falling back to the default reply. -/
def firstMatch : List (List (List Char) × String) → List Char → String → String
  | [], _, dflt => dflt
  | (kws, resp) :: rest, m, dflt =>
    if matchesAny kws m then resp else firstMatch rest m dflt

/-- C4: the chat router's rules are evaluated in a fixed priority order and the
first matching rule wins: the router coincides with ordered rule-table
evaluation, a message matching the reimbursement rule gets the reimbursement
reply no matter which later rules also match, and a message matching both the
pathway rule and the document rule (but not the reimbursement rule) gets the
pathway reply. -/
theorem getSimulatedResponse_first_rule_wins (msg : List Char) :
    getSimulatedResponse msg = firstMatch ruleTable (lowerText msg) respDefault ∧
    (matchesAny reimbursementKeywords (lowerText msg) = true →
      getSimulatedResponse msg = respReimbursement) ∧
    (matchesAny reimbursementKeywords (lowerText msg) = false →
      matchesAny pathwayKeywords (lowerText msg) = true →
      getSimulatedResponse msg = respPathway) := by
  have e1 : (hasSub "remboursement".toList (lowerText msg) || hasSub "coût".toList (lowerText msg) ||
      hasSub "prix".toList (lowerText msg)) = matchesAny reimbursementKeywords (lowerText msg) := by
    simp [matchesAny, reimbursementKeywords, Bool.or_assoc]
  have e2 : (hasSub "parcours".toList (lowerText msg) || hasSub "médecin".toList (lowerText msg) ||
      hasSub "spécialiste".toList (lowerText msg)) = matchesAny pathwayKeywords (lowerText msg) := by
    simp [matchesAny, pathwayKeywords, Bool.or_assoc]
  have e3 : (hasSub "document".toList (lowerText msg) || hasSub "analyser".toList (lowerText msg) ||
      hasSub "carte".toList (lowerText msg)) = matchesAny documentKeywords (lowerText msg) := by
    simp [matchesAny, documentKeywords, Bool.or_assoc]
  have hg : getSimulatedResponse msg =
      (if matchesAny reimbursementKeywords (lowerText msg) then respReimbursement
       else if matchesAny pathwayKeywords (lowerText msg) then respPathway
       else if matchesAny documentKeywords (lowerText msg) then respDocument
       else respDefault) := by
    simp only [getSimulatedResponse]
    rw [e1, e2, e3]
  refine ⟨?_, ?_, ?_⟩
  · rw [hg]
    cases h1 : matchesAny reimbursementKeywords (lowerText msg) <;>
      cases h2 : matchesAny pathwayKeywords (lowerText msg) <;>
        cases h3 : matchesAny documentKeywords (lowerText msg) <;>
          simp [firstMatch, ruleTable, h1, h2, h3]
  · intro h
    rw [hg]
    simp [h]
  · intro h1 h2
    rw [hg]
    simp [h1, h2]

/-- Concrete instance of C4: the message "prix médecin" contains both a
reimbursement keyword and a practitioner/pathway keyword, and the earlier
(reimbursement) rule wins; "parcours carte" matches the pathway and document
rules and the pathway rule wins. -/
theorem getSimulatedResponse_first_rule_wins_witness :
    getSimulatedResponse "prix médecin".toList = respReimbursement ∧
    getSimulatedResponse "parcours carte".toList = respPathway := by
  refine ⟨(getSimulatedResponse_first_rule_wins "prix médecin".toList).2.1 ?_,
          (getSimulatedResponse_first_rule_wins "parcours carte".toList).2.2 ?_ ?_⟩
  · decide
  · decide
  · decide

/-! ## Evidence/confidence grading -/

/-- Letter grade communicating result trustworthiness to the end user. -/
inductive Grade where
  | A
  | B
  | C
deriving DecidableEq, Repr

/-- Modelled from the spec: the backend routine mapping a numeric confidence to
a quality grade is not under src/ (only the UI that renders the resulting
letter is); the spec gives ≥0.9→A, ≥0.7→B, else→C with inclusive lower
bounds. -/
def gradeOfConfidence (c : ℚ) : Grade :=
  if 9/10 ≤ c then Grade.A else if 7/10 ≤ c then Grade.B else Grade.C

/-- Colour of the condition-extraction confidence dot rendered by
ChatInterface.tsx: `(confidence || 0) >= 0.9` is green, `>= 0.7` yellow,
otherwise red; an absent confidence counts as 0. -/
def conditionDotColor (confidence : Option ℚ) : String :=
  let v := confidence.getD 0
  if 9/10 ≤ v then "bg-green-500" else if 7/10 ≤ v then "bg-yellow-500" else "bg-red-500"

/-- C1: confidence grades to a letter with inclusive lower bounds — c ≥ 0.9
grades A, 0.7 ≤ c < 0.9 grades B, c < 0.7 grades C; the boundary values 0.9 and
0.7 grade to the higher band, 0.95/0.75/0.5 grade A/B/C, and the in-source
confidence dot of ChatInterface.tsx uses the same inclusive thresholds. -/
theorem gradeOfConfidence_bands (c : ℚ) :
    (9/10 ≤ c → gradeOfConfidence c = Grade.A) ∧
    (7/10 ≤ c → c < 9/10 → gradeOfConfidence c = Grade.B) ∧
    (c < 7/10 → gradeOfConfidence c = Grade.C) ∧
    gradeOfConfidence (9/10) = Grade.A ∧
    gradeOfConfidence (7/10) = Grade.B ∧
    gradeOfConfidence (95/100) = Grade.A ∧
    gradeOfConfidence (75/100) = Grade.B ∧
    gradeOfConfidence (5/10) = Grade.C ∧
    (9/10 ≤ c → conditionDotColor (some c) = "bg-green-500") ∧
    (7/10 ≤ c → c < 9/10 → conditionDotColor (some c) = "bg-yellow-500") ∧
    (c < 7/10 → conditionDotColor (some c) = "bg-red-500") := by
  refine ⟨?_, ?_, ?_, by norm_num [gradeOfConfidence], by norm_num [gradeOfConfidence],
    by norm_num [gradeOfConfidence], by norm_num [gradeOfConfidence],
    by norm_num [gradeOfConfidence], ?_, ?_, ?_⟩
  · intro h
    simp [gradeOfConfidence, h]
  · intro h1 h2
    rw [gradeOfConfidence, if_neg (not_le.mpr h2), if_pos h1]
  · intro h
    rw [gradeOfConfidence, if_neg (not_le.mpr (by linarith)), if_neg (not_le.mpr h)]
  · intro h
    simp [conditionDotColor, h]
  · intro h1 h2
    simp only [conditionDotColor, Option.getD_some]
    rw [if_neg (not_le.mpr h2), if_pos h1]
  · intro h
    simp only [conditionDotColor, Option.getD_some]
    rw [if_neg (not_le.mpr (by linarith)), if_neg (not_le.mpr h)]

/-- Concrete instances of C1 at the boundary and example values. -/
theorem gradeOfConfidence_bands_witness :
    gradeOfConfidence (95/100) = Grade.A ∧
    gradeOfConfidence (75/100) = Grade.B ∧
    conditionDotColor (some (9/10)) = "bg-green-500" ∧
    conditionDotColor (some (5/10)) = "bg-red-500" :=
  ⟨(gradeOfConfidence_bands (95/100)).1 (by norm_num),
   (gradeOfConfidence_bands (75/100)).2.1 (by norm_num) (by norm_num),
   (gradeOfConfidence_bands (9/10)).2.2.2.2.2.2.2.2.1 (by norm_num),
   (gradeOfConfidence_bands (5/10)).2.2.2.2.2.2.2.2.2.2 (by norm_num)⟩

/-! ## Presentation of confidence scores (appStore.ts, ChatInterface.tsx, DocumentUpload.tsx) -/

/-- JavaScript truthiness of an optional number: `undefined` and `0` are
falsy, every other number is truthy. -/
def numTruthy (o : Option ℚ) : Bool :=
  match o with
  | none => false
  | some v => v != 0

/-- The `results.analysis` payload consumed by the document-analysis branch of
`parseStructuredData` (appStore.ts). -/
structure AnalysisPayload where
  document_type : Option String
  extracted_data : Option (List (String × String))
  coverage_info : Option (List (String × ℚ))
  insights : Option (List String)
  confidence : Option ℚ
deriving DecidableEq

/-- The structured data attached to the chat message. -/
structure StructuredData where
  document_type : Option String
  extracted_data : Option (List (String × String))
  coverage_info : Option (List (String × ℚ))
  insights : Option (List String)
  confidence : Option ℚ
deriving DecidableEq

/-- The document-analysis branch of `parseStructuredData` (appStore.ts): each
field is copied into the message's structured data only when it is truthy — a
non-empty string for `document_type`, a present object for `extracted_data`
and `coverage_info`, a present non-empty list for `insights`, a present
non-zero number for `confidence`. -/
def parseStructuredDataDoc (a : AnalysisPayload) : StructuredData :=
  { document_type :=
      match a.document_type with
      | some s => if s ≠ "" then some s else none
      | none => none
    extracted_data := a.extracted_data
    coverage_info := a.coverage_info
    insights :=
      match a.insights with
      | some l => if 0 < l.length then some l else none
      | none => none
    confidence := if numTruthy a.confidence then a.confidence else none }

/-- The evidence metadata consumed by `EvidenceBadge` (ChatInterface.tsx). -/
structure EvidenceMetadata where
  level : Option String
  source : Option String
  confidence : Option ℚ
deriving DecidableEq

/-- The "% fiabilité" indicator of `EvidenceBadge` renders its percentage only
when `evidence.confidence` is truthy; otherwise no indicator is shown. -/
def evidenceBadgeIndicator (e : EvidenceMetadata) : Option ℚ :=
  if numTruthy e.confidence then e.confidence else none

/-- Whether `handleUpload`'s fallback text includes the
"Niveau de confiance" line (DocumentUpload.tsx: `if (analysis.confidence)`). -/
def uploadConfidenceLineShown (confidence : Option ℚ) : Bool :=
  numTruthy confidence

/-- C9: a confidence of exactly 0 is indistinguishable from an absent
confidence at the presentation boundary — `parseStructuredData` produces the
same structured data for confidence 0 as for no confidence (in particular no
confidence field), the evidence badge shows no "% fiabilité" indicator, and
the document-upload fallback text omits its confidence line. -/
theorem confidence_zero_indistinguishable (a : AnalysisPayload) (e : EvidenceMetadata) :
    (a.confidence = some 0 →
      parseStructuredDataDoc a = parseStructuredDataDoc { a with confidence := none }) ∧
    (a.confidence = some 0 → (parseStructuredDataDoc a).confidence = none) ∧
    (e.confidence = some 0 → evidenceBadgeIndicator e = none) ∧
    uploadConfidenceLineShown (some 0) = false := by
  refine ⟨?_, ?_, ?_, rfl⟩
  · intro h
    simp [parseStructuredDataDoc, numTruthy, h]
  · intro h
    simp [parseStructuredDataDoc, numTruthy, h]
  · intro h
    simp [evidenceBadgeIndicator, numTruthy, h]

/-- Concrete instance of C9: a document analysis with confidence 0 parses
exactly as one with no confidence, and the badge hides the indicator. -/
theorem confidence_zero_indistinguishable_witness :
    parseStructuredDataDoc
        { document_type := some "carte_mutuelle", extracted_data := none,
          coverage_info := none, insights := none, confidence := some 0 } =
      parseStructuredDataDoc
        { document_type := some "carte_mutuelle", extracted_data := none,
          coverage_info := none, insights := none, confidence := none } ∧
    evidenceBadgeIndicator { level := some "A", source := none, confidence := some 0 } = none :=
  ⟨(confidence_zero_indistinguishable
      { document_type := some "carte_mutuelle", extracted_data := none,
        coverage_info := none, insights := none, confidence := some 0 }
      { level := some "A", source := none, confidence := some 0 }).1 rfl,
   (confidence_zero_indistinguishable
      { document_type := some "carte_mutuelle", extracted_data := none,
        coverage_info := none, insights := none, confidence := some 0 }
      { level := some "A", source := none, confidence := some 0 }).2.2.1 rfl⟩

/-! ## Document upload file validation (DocumentUpload.tsx) -/

/-- A browser `File` as far as the upload code inspects it: name, MIME type and
byte size. -/
structure UploadFile where
  name : String
  type : String
  size : ℕ
deriving DecidableEq

/-- The MIME types accepted by `handleFiles`. -/
def validTypes : List String :=
  ["image/jpeg", "image/png", "application/pdf", "image/jpg"]

/-- The validity predicate of `handleFiles`: accepted MIME type and size at
most 10 * 1024 * 1024 bytes. -/
def isValidFile (f : UploadFile) : Bool :=
  validTypes.contains f.type && f.size ≤ 10 * 1024 * 1024

/-- The handler `handleFiles`: append the valid files of a new selection to the current
list, silently dropping every invalid file. -/
def handleFiles (prev files : List UploadFile) : List UploadFile :=
  prev ++ files.filter (fun f => isValidFile f)

/-- The handler `handleUpload` posts only the first element of the file list (when any). -/
def uploadTarget (files : List UploadFile) : Option UploadFile :=
  files.head?

/-- C10: the upload list's invariant — if every file already in the list is
valid then every file after `handleFiles` is valid (accepted MIME type, at
most 10485760 bytes); a selection of only invalid files leaves the list
unchanged; and the file `handleUpload` posts (the head of the list) is always
valid under the invariant. -/
theorem handleFiles_invariant (prev files : List UploadFile) :
    ((∀ f ∈ prev, isValidFile f = true) →
      ∀ f ∈ handleFiles prev files, isValidFile f = true) ∧
    ((∀ f ∈ files, isValidFile f = false) → handleFiles prev files = prev) ∧
    (∀ g, (∀ f ∈ prev, isValidFile f = true) →
      uploadTarget (handleFiles prev files) = some g → isValidFile g = true) := by
  refine ⟨?_, ?_, ?_⟩
  · intro hprev f hf
    rcases List.mem_append.mp hf with hl | hr
    · exact hprev f hl
    · exact List.of_mem_filter hr
  · intro hinv
    have : files.filter (fun f => isValidFile f) = [] := by
      rw [List.filter_eq_nil_iff]
      intro a ha
      simp [hinv a ha]
    simp [handleFiles, this]
  · intro g hprev hhead
    have hmem : g ∈ handleFiles prev files := by
      cases hl : handleFiles prev files with
      | nil => simp [uploadTarget, hl] at hhead
      | cons a l =>
        rw [uploadTarget, hl] at hhead
        simp only [List.head?_cons, Option.some.injEq] at hhead
        rw [← hhead]
        exact List.mem_cons_self a l
    rcases List.mem_append.mp hmem with hl | hr
    · exact hprev g hl
    · exact List.of_mem_filter hr

/-- Concrete instance of C10: an oversized PDF and a text file are both
dropped, leaving a previously valid list unchanged, and the posted head
satisfies the predicate. -/
theorem handleFiles_invariant_witness :
    handleFiles [{ name := "carte.png", type := "image/png", size := 1000 }]
        [{ name := "big.pdf", type := "application/pdf", size := 10485761 },
         { name := "notes.txt", type := "text/plain", size := 10 }] =
      [{ name := "carte.png", type := "image/png", size := 1000 }] ∧
    isValidFile { name := "carte.png", type := "image/png", size := 1000 } = true :=
  ⟨(handleFiles_invariant [{ name := "carte.png", type := "image/png", size := 1000 }]
      [{ name := "big.pdf", type := "application/pdf", size := 10485761 },
       { name := "notes.txt", type := "text/plain", size := 10 }]).2.1
      (by decide),
   by decide⟩

/-! ## Practitioner directory list (agentic_user_interface, DoctorList.tsx) -/

/-- A practitioner record as far as DoctorList inspects it. -/
structure Practitioner where
  id : String
  name : String
  active : Bool
  emails : List String
deriving DecidableEq

/-- The hard-coded mock practitioner of DoctorList.tsx. -/
def mockPractitioner : Practitioner :=
  { id := "1", name := "Dr. Mock One", active := true, emails := ["mock1@example.com"] }

/-- The component's state: the doctor list, the loading flag and the error
message. -/
structure DoctorListState where
  doctors : List Practitioner
  loading : Bool
  error : Option String
deriving DecidableEq

/-- DoctorList's initial state: the mock list, loading, no error. -/
def doctorListInit : DoctorListState :=
  { doctors := [mockPractitioner], loading := true, error := none }

/-- Outcome of the directory request: a response whose `data` may or may not
be an array, or a failure caught by the `catch` handler. -/
inductive FetchOutcome where
  | success (isArray : Bool) (data : List Practitioner)
  | failure
deriving DecidableEq

/-- The effect's `then`/`catch` handlers of DoctorList.tsx: on success set the
doctors to the response data when it is an array (empty list otherwise) and
clear loading; on failure set the doctors to the one-element mock list and
clear loading. Neither path assigns the error state. -/
def doctorListStep (s : DoctorListState) : FetchOutcome → DoctorListState
  | FetchOutcome.success isArray data =>
    { s with doctors := if isArray then data else [], loading := false }
  | FetchOutcome.failure =>
    { s with doctors := [mockPractitioner], loading := false }

/-- The render shows the error paragraph exactly when `error` is non-null. -/
def errorParagraphShown (s : DoctorListState) : Bool :=
  s.error.isSome

/-- C8: after a failed practitioner-directory request the state is exactly the
one-element "Dr. Mock One" list with loading cleared and error still null, and
on every outcome (success or failure) the error stays null, so the error
paragraph is never rendered. -/
theorem doctorList_failure_mock_no_error (o : FetchOutcome) :
    doctorListStep doctorListInit FetchOutcome.failure =
      { doctors := [mockPractitioner], loading := false, error := none } ∧
    (doctorListStep doctorListInit o).error = none ∧
    errorParagraphShown (doctorListStep doctorListInit o) = false := by
  refine ⟨rfl, ?_, ?_⟩ <;> cases o <;> rfl

/-! ## Core data model

Modelled from the spec: the Python interpreter / orchestrator / formatter
modules of the repository (v2/modules) are not under src/ — only their
documentation and the frontends consuming their output are. -/

/-- The capability domains of the Intent Classifier. -/
inductive Intent where
  | medication_search
  | reimbursement_simulation
  | care_pathway
  | document_analysis
  | organization_search
  | practitioner_search
  | general_query
deriving DecidableEq, Repr

/-- The entity-extraction methods, in their fixed precedence order. -/
inductive ExtractionMethod where
  | exactSynonym
  | fuzzy
  | regexPattern
  | nerPass
  | contextualKeyword
deriving DecidableEq, Repr

/-- Kind of an extracted entity. -/
inductive EntityKind where
  | condition
  | medication
  | specialty
  | location
  | personName
deriving DecidableEq, Repr

/-- Modelled from the spec: the confidence attached by each extraction method
(exact synonym 1.0, fuzzy 0.8, regex 0.85, NER 0.75, contextual keyword
0.65). -/
def methodConfidence : ExtractionMethod → ℚ
  | ExtractionMethod.exactSynonym => 1
  | ExtractionMethod.fuzzy => 8/10
  | ExtractionMethod.regexPattern => 85/100
  | ExtractionMethod.nerPass => 75/100
  | ExtractionMethod.contextualKeyword => 65/100

/-- Position of a method in the fixed precedence order. -/
def methodOrderIdx : ExtractionMethod → ℕ
  | ExtractionMethod.exactSynonym => 0
  | ExtractionMethod.fuzzy => 1
  | ExtractionMethod.regexPattern => 2
  | ExtractionMethod.nerPass => 3
  | ExtractionMethod.contextualKeyword => 4

/-- An extracted entity: kind, canonical value, the raw span it covers
(half-open character positions), its confidence and extraction method. -/
structure ExtractedEntity where
  kind : EntityKind
  canonical_value : String
  spanLo : ℕ
  spanHi : ℕ
  confidence : ℚ
  extraction_method : ExtractionMethod
deriving DecidableEq

/-- Two entities overlap when their raw spans intersect. -/
def spansOverlap (e1 e2 : ExtractedEntity) : Bool :=
  e1.spanLo < e2.spanHi && e2.spanLo < e1.spanHi

/-- Modelled from the spec: the tie-break between two overlapping entities —
keep the higher confidence; on an exact tie keep the one whose method comes
earlier in the precedence order (the first argument on a full tie, matching
production order). -/
def keepOf (e1 e2 : ExtractedEntity) : ExtractedEntity :=
  if e2.confidence < e1.confidence then e1
  else if e1.confidence < e2.confidence then e2
  else if methodOrderIdx e1.extraction_method ≤ methodOrderIdx e2.extraction_method then e1
  else e2

/-- Fold a candidate entity into the kept list, resolving an overlap with an
already-kept entity through `keepOf`. -/
def insertEntity : List ExtractedEntity → ExtractedEntity → List ExtractedEntity
  | [], e => [e]
  | a :: rest, e =>
    if spansOverlap a e then keepOf a e :: rest else a :: insertEntity rest e

/-- Overlap resolution over all candidates produced by the extraction
methods, in their production order. -/
def resolveOverlaps (es : List ExtractedEntity) : List ExtractedEntity :=
  es.foldl insertEntity []

/-- C6: the entity-extraction tie-break — when two methods produce entities
with overlapping spans, extraction keeps the higher-confidence one; on an
exactly equal confidence it keeps the earlier method in the precedence order
(and with the method-determined confidences 1.0 / 0.8 / 0.85 / 0.75 / 0.65 an
exact tie forces the two methods to coincide). -/
theorem extraction_tie_break (e1 e2 : ExtractedEntity)
    (hm1 : e1.confidence = methodConfidence e1.extraction_method)
    (hm2 : e2.confidence = methodConfidence e2.extraction_method) :
    (spansOverlap e1 e2 = true → resolveOverlaps [e1, e2] = [keepOf e1 e2]) ∧
    (e2.confidence < e1.confidence → keepOf e1 e2 = e1) ∧
    (e1.confidence < e2.confidence → keepOf e1 e2 = e2) ∧
    (e1.confidence = e2.confidence →
      methodOrderIdx e1.extraction_method ≤ methodOrderIdx e2.extraction_method →
      keepOf e1 e2 = e1) ∧
    (e1.confidence = e2.confidence →
      methodOrderIdx e2.extraction_method < methodOrderIdx e1.extraction_method →
      keepOf e1 e2 = e2) ∧
    (e1.confidence = e2.confidence → e1.extraction_method = e2.extraction_method) := by
  refine ⟨?_, ?_, ?_, ?_, ?_, ?_⟩
  · intro h
    simp [resolveOverlaps, insertEntity, h]
  · intro h
    rw [keepOf, if_pos h]
  · intro h
    rw [keepOf, if_neg (not_lt.mpr (le_of_lt h)), if_pos h]
  · intro he hord
    rw [keepOf, if_neg (not_lt.mpr (le_of_eq he)), if_neg (not_lt.mpr (ge_of_eq he)),
      if_pos hord]
  · intro he hord
    rw [keepOf, if_neg (not_lt.mpr (le_of_eq he)), if_neg (not_lt.mpr (ge_of_eq he)),
      if_neg (not_le.mpr hord)]
  · intro he
    rw [hm1, hm2] at he
    cases h1 : e1.extraction_method <;> cases h2 : e2.extraction_method <;>
      rw [h1, h2] at he <;> first
      | rfl
      | (exfalso; norm_num [methodConfidence] at he)

/-- Concrete instance of C6: an overlapping fuzzy match (confidence 0.8) and
regex match (confidence 0.85) keep the regex entity, and two overlapping
contextual-keyword entities (an exact tie) keep the first one. -/
theorem extraction_tie_break_witness :
    resolveOverlaps
        [{ kind := EntityKind.medication, canonical_value := "ibuprofène", spanLo := 0,
           spanHi := 5, confidence := 8/10, extraction_method := ExtractionMethod.fuzzy },
         { kind := EntityKind.medication, canonical_value := "doliprane", spanLo := 3,
           spanHi := 8, confidence := 85/100,
           extraction_method := ExtractionMethod.regexPattern }] =
      [{ kind := EntityKind.medication, canonical_value := "doliprane", spanLo := 3,
         spanHi := 8, confidence := 85/100,
         extraction_method := ExtractionMethod.regexPattern }] := by
  have h := extraction_tie_break
    { kind := EntityKind.medication, canonical_value := "ibuprofène", spanLo := 0,
      spanHi := 5, confidence := 8/10, extraction_method := ExtractionMethod.fuzzy }
    { kind := EntityKind.medication, canonical_value := "doliprane", spanLo := 3,
      spanHi := 8, confidence := 85/100, extraction_method := ExtractionMethod.regexPattern }
    rfl rfl
  rw [h.1 (by decide), h.2.2.1 (by norm_num)]

/-! ## Orchestrator (modelled from the spec) -/

/-- A normalized record fetched from an external data source. -/
structure ExternalRecord where
  source : String
  name : String
deriving DecidableEq

/-- Provenance note for one data source of a Result: its name and whether it
was available. -/
structure EvidenceEntry where
  source_name : String
  available : Bool
deriving DecidableEq

/-- The orchestrator's structured result. -/
structure Result where
  intent : Intent
  entities_used : List ExtractedEntity
  records : List ExternalRecord
  narrative_text : String
  confidence : ℚ
  evidence : List EvidenceEntry
deriving DecidableEq

/-- Outcome of one external data-source call after its timeout and single
retry: the fetched records, or exhaustion. -/
def SourceOutcome := Except Unit (List ExternalRecord)

/-- Records contributed by an outcome: a failed source contributes nothing. -/
def recordsOf : SourceOutcome → List ExternalRecord
  | Except.ok rs => rs
  | Except.error _ => []

/-- Whether the call succeeded. -/
def outcomeOk : SourceOutcome → Bool
  | Except.ok _ => true
  | Except.error _ => false

/-- Modelled from the spec: `Orchestrator.resolve` for an intent requiring
exactly two external data-source calls — merge the records of the succeeding
calls, reduce the confidence proportionally to the fraction of sources that
succeeded, and note each source in the evidence with its availability instead
of failing the whole Result. -/
def resolveTwoSources (intent : Intent) (name1 name2 : String)
    (o1 o2 : SourceOutcome) (baseConfidence : ℚ) : Result :=
  let succ : ℚ := (if outcomeOk o1 then 1 else 0) + (if outcomeOk o2 then 1 else 0)
  { intent := intent
    entities_used := []
    records := recordsOf o1 ++ recordsOf o2
    narrative_text := ""
    confidence := baseConfidence * succ / 2
    evidence := [⟨name1, outcomeOk o1⟩, ⟨name2, outcomeOk o2⟩] }

/-- C3: partial-failure monotonicity — for an intent requiring exactly two
external calls, if exactly one call fails and the other succeeds (returning at
least one record), the Result still has a non-empty records list, its
confidence is strictly below the both-succeed confidence, and the failed
source is recorded in the evidence as unavailable. Both failure sides are
covered. -/
theorem resolve_partial_failure (intent : Intent) (n1 n2 : String)
    (r1 r2 : List ExternalRecord) (base : ℚ) (hr : r1 ≠ []) (hb : 0 < base) :
    (resolveTwoSources intent n1 n2 (Except.ok r1) (Except.error ()) base).records ≠ [] ∧
    (resolveTwoSources intent n1 n2 (Except.ok r1) (Except.error ()) base).confidence <
      (resolveTwoSources intent n1 n2 (Except.ok r1) (Except.ok r2) base).confidence ∧
    (resolveTwoSources intent n1 n2 (Except.ok r1) (Except.error ()) base).evidence =
      [⟨n1, true⟩, ⟨n2, false⟩] ∧
    (resolveTwoSources intent n1 n2 (Except.error ()) (Except.ok r1) base).records ≠ [] ∧
    (resolveTwoSources intent n1 n2 (Except.error ()) (Except.ok r1) base).confidence <
      (resolveTwoSources intent n1 n2 (Except.ok r2) (Except.ok r1) base).confidence ∧
    (resolveTwoSources intent n1 n2 (Except.error ()) (Except.ok r1) base).evidence =
      [⟨n1, false⟩, ⟨n2, true⟩] := by
  refine ⟨?_, ?_, rfl, ?_, ?_, rfl⟩
  · simpa [resolveTwoSources, recordsOf] using hr
  · simp only [resolveTwoSources, outcomeOk]
    norm_num
    linarith
  · simpa [resolveTwoSources, recordsOf] using hr
  · simp only [resolveTwoSources, outcomeOk]
    norm_num
    linarith

/-- Concrete instance of C3: with a base confidence of 0.9, losing the
directory source halves the confidence while keeping the medication record. -/
theorem resolve_partial_failure_witness :
    (resolveTwoSources Intent.care_pathway "bdpm" "annuaire"
        (Except.ok [⟨"bdpm", "DOLIPRANE"⟩]) (Except.error ()) (9/10)).records ≠ [] ∧
    (resolveTwoSources Intent.care_pathway "bdpm" "annuaire"
        (Except.ok [⟨"bdpm", "DOLIPRANE"⟩]) (Except.error ()) (9/10)).confidence <
      (resolveTwoSources Intent.care_pathway "bdpm" "annuaire"
        (Except.ok [⟨"bdpm", "DOLIPRANE"⟩]) (Except.ok []) (9/10)).confidence :=
  ⟨(resolve_partial_failure Intent.care_pathway "bdpm" "annuaire"
      [⟨"bdpm", "DOLIPRANE"⟩] [] (9/10) (List.cons_ne_nil _ _) (by norm_num)).1,
   (resolve_partial_failure Intent.care_pathway "bdpm" "annuaire"
      [⟨"bdpm", "DOLIPRANE"⟩] [] (9/10) (List.cons_ne_nil _ _) (by norm_num)).2.1⟩

/-! ## Intent classifier (modelled from the spec) -/

/-- Whether the entity list contains an entity of the given kind. -/
def hasEntityKind (ents : List ExtractedEntity) (k : EntityKind) : Bool :=
  ents.any (fun e => e.kind == k)

/-- Confidence floor under which a rule match is not trusted. -/
def confidenceFloor : ℚ := 1/2

/-- Modelled from the spec: the ordered keyword/phrase rule table of the
intent classifier — reimbursement keywords; a search verb together with a
specialty entity; a medication entity with no location entity. The first
matching rule wins. -/
def classifyRules (text : List Char) (ents : List ExtractedEntity) :
    Option (Intent × ℚ) :=
  let m := lowerText text
  if hasSub "coûte".toList m || hasSub "prix".toList m ||
      hasSub "remboursement".toList m then
    some (Intent.reimbursement_simulation, 9/10)
  else if (hasSub "trouve".toList m || hasSub "cherche".toList m) &&
      hasEntityKind ents EntityKind.specialty then
    some (Intent.practitioner_search, 85/100)
  else if hasEntityKind ents EntityKind.medication &&
      !hasEntityKind ents EntityKind.location then
    some (Intent.medication_search, 8/10)
  else
    none

/-- Modelled from the spec: validated use of the LLM fallback — a reply with a
confidence outside [0,1] counts as malformed; malformed output or outright
failure (`none`) degrades to `general_query` with confidence 0. -/
def llmFallback (reply : Option (Intent × ℚ)) : Intent × ℚ :=
  match reply with
  | some (i, c) => if 0 ≤ c ∧ c ≤ 1 then (i, c) else (Intent.general_query, 0)
  | none => (Intent.general_query, 0)

/-- Modelled from the spec: `classify` — evaluate the rule table in priority
order; with no match, or a match below the confidence floor, delegate to the
LLM seam; on LLM failure fall back to `general_query` with confidence 0. A
total Lean function: it never raises to its caller. -/
def classify (llm : List Char → Option (Intent × ℚ)) (text : List Char)
    (ents : List ExtractedEntity) : Intent × ℚ :=
  match classifyRules text ents with
  | some (i, c) => if confidenceFloor ≤ c then (i, c) else llmFallback (llm text)
  | none => llmFallback (llm text)

/-- Every confidence in the rule table lies in [0,1]. -/
theorem classifyRules_confidence_range (text : List Char)
    (ents : List ExtractedEntity) (i : Intent) (c : ℚ)
    (h : classifyRules text ents = some (i, c)) : 0 ≤ c ∧ c ≤ 1 := by
  rw [classifyRules] at h
  split_ifs at h <;> simp only [Option.some.injEq, Prod.mk.injEq] at h
  · rw [← h.2]
    norm_num
  · rw [← h.2]
    norm_num
  · rw [← h.2]
    norm_num

/-- The validated LLM fallback always produces a confidence in [0,1]. -/
theorem llmFallback_confidence_range (reply : Option (Intent × ℚ)) :
    0 ≤ (llmFallback reply).2 ∧ (llmFallback reply).2 ≤ 1 := by
  match reply with
  | none => exact ⟨by norm_num [llmFallback], by norm_num [llmFallback]⟩
  | some (i, c) =>
    rw [llmFallback]
    split_ifs with h
    · exact h
    · exact ⟨by norm_num, by norm_num⟩

/-- C2: intent classification is total — for every input text, entity list and
LLM seam behaviour it returns exactly one intent with a confidence in [0,1]
(it is a total function, so it never raises), and when no rule matches and the
LLM fallback fails it returns `general_query` with confidence 0. -/
theorem classify_total (llm : List Char → Option (Intent × ℚ))
    (text : List Char) (ents : List ExtractedEntity) :
    0 ≤ (classify llm text ents).2 ∧ (classify llm text ents).2 ≤ 1 ∧
    (classifyRules text ents = none → llm text = none →
      classify llm text ents = (Intent.general_query, 0)) := by
  rcases hr : classifyRules text ents with _ | ⟨i, c⟩
  · refine ⟨?_, ?_, ?_⟩
    · simp only [classify, hr]
      exact (llmFallback_confidence_range (llm text)).1
    · simp only [classify, hr]
      exact (llmFallback_confidence_range (llm text)).2
    · intro _ hl
      simp [classify, hr, hl, llmFallback]
  · have hc := classifyRules_confidence_range text ents i c hr
    refine ⟨?_, ?_, ?_⟩
    · simp only [classify, hr]
      split_ifs with hfl
      · exact hc.1
      · exact (llmFallback_confidence_range (llm text)).1
    · simp only [classify, hr]
      split_ifs with hfl
      · exact hc.2
      · exact (llmFallback_confidence_range (llm text)).2
    · intro hnone
      cases hnone

/-- Concrete instance of C2: a greeting with no entities matches no rule, and
with a failing LLM seam the classifier lands on `general_query` with
confidence 0. -/
theorem classify_total_witness :
    classify (fun _ => none) "bonjour".toList [] = (Intent.general_query, 0) :=
  (classify_total (fun _ => none) "bonjour".toList []).2.2 (by decide) rfl

/-! ## Invalid-query handling (modelled from the spec; frontend guard in
ChatInterface.tsx) -/

/-- JavaScript `String.trim`: drop whitespace from both ends. -/
def jsTrim (s : List Char) : List Char :=
  ((s.dropWhile Char.isWhitespace).reverse.dropWhile Char.isWhitespace).reverse

/-- A query text is blank when it is empty or whitespace-only. -/
def isBlankQuery (s : List Char) : Bool :=
  (jsTrim s).isEmpty

/-- Modelled from the spec: the clarification-request narrative of the
terminal InvalidQuery Result (its exact wording is not fixed by the spec). -/
def clarificationNarrative : String :=
  "Pouvez-vous préciser votre question ?"

/-- Modelled from the spec: the entry point guarding against InvalidQuery — a
blank query yields a terminal clarification Result with zero records and
confidence 0 and dispatches no external data-source call; a non-blank query is
handed to the normal resolution pipeline, abstracted as `process`, which
returns a Result together with the names of the data sources it dispatched. -/
def handleQuery (process : List Char → Result × List String) (text : List Char) :
    Result × List String :=
  if isBlankQuery text then
    ({ intent := Intent.general_query
       entities_used := []
       records := []
       narrative_text := clarificationNarrative
       confidence := 0
       evidence := [] }, [])
  else
    process text

/-- The guard of `handleSendMessage` in ChatInterface.tsx: a message whose
trim is empty is not sent — the chat history is unchanged and no API call is
made. -/
def handleSendMessage (chat : List (List Char)) (message : List Char) :
    List (List Char) :=
  if (jsTrim message).isEmpty then chat else chat ++ [message]

/-- C5: an empty or whitespace-only query produces the terminal clarification
Result — a clarification narrative, zero records, confidence 0, an empty
dispatch list (no external data source is called) — without an exception
(`handleQuery` is total), and the frontend guard of ChatInterface.tsx does not
send such a message at all. -/
theorem blank_query_clarification (process : List Char → Result × List String)
    (chat : List (List Char)) (text : List Char) (hb : isBlankQuery text = true) :
    (handleQuery process text).1.records = [] ∧
    (handleQuery process text).1.confidence = 0 ∧
    (handleQuery process text).1.narrative_text = clarificationNarrative ∧
    (handleQuery process text).2 = [] ∧
    handleSendMessage chat text = chat := by
  have ht : (jsTrim text).isEmpty = true := hb
  rw [handleQuery, if_pos hb, handleSendMessage, if_pos ht]
  exact ⟨rfl, rfl, rfl, rfl, rfl⟩

/-- A stand-in Result used to instantiate the abstract pipeline in witnesses:
a non-zero confidence and a dispatched source, so the clarification path is
visibly not the pipeline's own output. -/
def sampleResult : Result :=
  { intent := Intent.general_query
    entities_used := []
    records := []
    narrative_text := "Bonjour"
    confidence := 1
    evidence := [] }

/-- A stand-in pipeline dispatching one data source. -/
def sampleProcess : List Char → Result × List String :=
  fun _ => (sampleResult, ["bdpm"])

/-- Concrete instance of C5: the empty string and a whitespace-only string
both take the clarification path and are not sent by the frontend. -/
theorem blank_query_clarification_witness :
    (handleQuery sampleProcess "".toList).1.confidence = 0 ∧
    (handleQuery sampleProcess "  ".toList).2 = [] ∧
    handleSendMessage [] "  ".toList = [] :=
  ⟨(blank_query_clarification sampleProcess [] "".toList (by decide)).2.1,
   (blank_query_clarification sampleProcess [] "  ".toList (by decide)).2.2.2.1,
   (blank_query_clarification sampleProcess [] "  ".toList (by decide)).2.2.2.2⟩

/-! ## Response formatter (modelled from the spec; fallback rendering in
ChatInterface.tsx) -/

/-- A typed card of the formatted response. -/
inductive Card where
  | medication (r : ExternalRecord)
  | practitioner (r : ExternalRecord)
  | organization (r : ExternalRecord)
  | pathwayStep (r : ExternalRecord)
deriving DecidableEq

/-- The serializable wire format handed to the UI. -/
structure FormattedResponse where
  narrative : String
  cards : List Card
  evidence_meta : List EvidenceEntry
deriving DecidableEq

/-- Modelled from the spec: the Response Formatter — a pure total function
defined on every Intent variant; each data-bearing intent maps its records to
typed cards, and `general_query` yields a narrative-only response with no
cards. -/
def format (r : Result) : FormattedResponse :=
  { narrative := r.narrative_text
    evidence_meta := r.evidence
    cards :=
      match r.intent with
      | Intent.medication_search => r.records.map Card.medication
      | Intent.reimbursement_simulation => r.records.map Card.medication
      | Intent.care_pathway => r.records.map Card.pathwayStep
      | Intent.document_analysis => []
      | Intent.organization_search => r.records.map Card.organization
      | Intent.practitioner_search => r.records.map Card.practitioner
      | Intent.general_query => [] }

/-- The props of `KnowledgeBasedResponse` (ChatInterface.tsx) that decide its
rendering mode; only presence matters for the decision, so the structured
props are kept abstract. -/
structure KBRProps where
  content : String
  evidence : Option EvidenceMetadata
  medications : Option (List String)
  pathway_steps : Option (List String)
  quality_indicators : Option (List (String × ℚ))
  document_type : Option String
deriving DecidableEq

/-- The `isKnowledgeBased` test of ChatInterface.tsx: some structured prop is
truthy — a present object or array (arrays are truthy even when empty), or a
present non-empty string for `document_type`. -/
def isKnowledgeBased (p : KBRProps) : Bool :=
  p.evidence.isSome || p.medications.isSome || p.pathway_steps.isSome ||
    p.quality_indicators.isSome ||
    (match p.document_type with
     | some s => s ≠ ""
     | none => false)

/-- What `KnowledgeBasedResponse` renders: plain narrative text, or the
structured layout. -/
inductive KBRRender where
  | plainText (content : String)
  | structured (content : String)
deriving DecidableEq

/-- The component's rendering decision (ChatInterface.tsx): without any
structured prop it falls back to the plain narrative display. -/
def renderKBR (p : KBRProps) : KBRRender :=
  if isKnowledgeBased p then KBRRender.structured p.content
  else KBRRender.plainText p.content

/-- C7: the Response Formatter is a pure total function over every Intent
variant — its narrative and evidence are those of the Result, and a
`general_query` Result formats to a narrative-only response with an empty card
list; correspondingly the in-source `KnowledgeBasedResponse` renders plain
narrative text whenever no structured prop is present. -/
theorem format_general_query_no_cards (r : Result) (p : KBRProps) :
    (format r).narrative = r.narrative_text ∧
    (format r).evidence_meta = r.evidence ∧
    (r.intent = Intent.general_query → (format r).cards = []) ∧
    (isKnowledgeBased p = false → renderKBR p = KBRRender.plainText p.content) := by
  refine ⟨rfl, rfl, ?_, ?_⟩
  · intro h
    simp [format, h]
  · intro h
    rw [renderKBR, if_neg]
    rw [h]
    exact Bool.false_ne_true

/-- A props object with no structured prop present. -/
def samplePlainProps : KBRProps :=
  { content := "Bonjour"
    evidence := none
    medications := none
    pathway_steps := none
    quality_indicators := none
    document_type := none }

/-- Concrete instance of C7: a general_query Result formats to its narrative
with no cards, and a props object with no structured prop renders plain. -/
theorem format_general_query_no_cards_witness :
    (format sampleResult).cards = [] ∧
    renderKBR samplePlainProps = KBRRender.plainText "Bonjour" :=
  ⟨(format_general_query_no_cards sampleResult samplePlainProps).2.2.1 rfl,
   (format_general_query_no_cards sampleResult samplePlainProps).2.2.2 rfl⟩

end Mediflux
